import Mathlib

/-!
Shallow embedding of `src/web_app/app.py` (the `SimpleBodyTracker` class and
the Flask routes around it).

Modelling conventions:
* normalized landmark coordinates and visibility scores are exact rationals;
* Python `int()` (truncation toward zero) is `pyInt`;
* the external collaborators (base64 codec, PIL image open, cv2 colour
  conversion and drawing, the mediapipe pose model) are an explicit
  environment `Env` of functions; the fallible ones return `Except String`,
  an exception being modelled as the `.error` case;
* `calculate_distance` in the source returns `math.sqrt` of an integer; the
  embedding carries the (exact) squared distance `distanceSq`, so the reported
  distance of a measurement is `Real.sqrt m.distanceSq` by construction;
* the in-place mutation performed by the drawing primitives is modelled twice:
  once as pure value passing inside `process_image`, and once against an
  explicit heap of image buffers (`Heap`) for the frame property of the
  annotation stage.
-/

namespace CameraTracker

/-- A pose landmark as produced by the mediapipe landmark source:
normalized coordinates plus a visibility confidence. -/
structure Landmark where
  x : ℚ
  y : ℚ
  z : ℚ
  visibility : ℚ
deriving Repr, DecidableEq, Inhabited

/-- One entry of the `landmarks_data` list built in `process_image`
(the per-landmark dict with coordinates, visibility, index and name). -/
structure LandmarkDict where
  x : ℚ
  y : ℚ
  z : ℚ
  visibility : ℚ
  index : Nat
  name : String
deriving Repr, DecidableEq

/-- One entry of the `distances` list built by `calculate_body_distances`.
`distanceSq` is the exact square of the reported `distance` field
(the source stores `math.sqrt` of this integer). -/
structure Measurement where
  label : String
  distanceSq : ℤ
  point1 : Nat
  point2 : Nat
  point1_name : String
  point2_name : String
  coord1 : ℤ × ℤ
  coord2 : ℤ × ℤ
deriving Repr, DecidableEq

/-- Python `int()` applied to an exact rational: truncation toward zero
(floor for nonnegative arguments, ceiling for negative ones). -/
def pyInt (q : ℚ) : ℤ :=
  if 0 ≤ q then ⌊q⌋ else ⌈q⌉

/-- `SimpleBodyTracker.calculate_distance` (app.py lines 40-46).
`image_shape` is `(h, w)` as in numpy's `shape[:2]`.  The first component is
the squared distance; the source returns its real square root. -/
def calculate_distance (point1 point2 : Landmark) (image_shape : Nat × Nat) :
    ℤ × (ℤ × ℤ) × (ℤ × ℤ) :=
  let h : ℤ := image_shape.1
  let w : ℤ := image_shape.2
  let x1 := pyInt (point1.x * w)
  let y1 := pyInt (point1.y * h)
  let x2 := pyInt (point2.x * w)
  let y2 := pyInt (point2.y * h)
  ((x2 - x1) ^ 2 + (y2 - y1) ^ 2, (x1, y1), (x2, y2))

/-- `SimpleBodyTracker.get_landmark_name` (app.py lines 187-201). -/
def get_landmark_name (index : Nat) : String :=
  match index with
  | 0 => "Nose"
  | 1 => "Left Eye Inner"
  | 2 => "Left Eye"
  | 3 => "Left Eye Outer"
  | 4 => "Right Eye Inner"
  | 5 => "Right Eye"
  | 6 => "Right Eye Outer"
  | 7 => "Left Ear"
  | 8 => "Right Ear"
  | 9 => "Mouth Left"
  | 10 => "Mouth Right"
  | 11 => "Left Shoulder"
  | 12 => "Right Shoulder"
  | 13 => "Left Elbow"
  | 14 => "Right Elbow"
  | 15 => "Left Wrist"
  | 16 => "Right Wrist"
  | 17 => "Left Pinky"
  | 18 => "Right Pinky"
  | 19 => "Left Index"
  | 20 => "Right Index"
  | 21 => "Left Thumb"
  | 22 => "Right Thumb"
  | 23 => "Left Hip"
  | 24 => "Right Hip"
  | 25 => "Left Knee"
  | 26 => "Right Knee"
  | 27 => "Left Ankle"
  | 28 => "Right Ankle"
  | 29 => "Left Heel"
  | 30 => "Right Heel"
  | 31 => "Left Foot Index"
  | 32 => "Right Foot Index"
  | _ => "Point_" ++ toString index

/-- The fixed `key_pairs` table of `calculate_body_distances`
(app.py lines 117-127), with the mediapipe `PoseLandmark` enum values
substituted: LEFT_SHOULDER=11, RIGHT_SHOULDER=12, LEFT_ELBOW=13,
RIGHT_ELBOW=14, LEFT_WRIST=15, RIGHT_WRIST=16, LEFT_HIP=23, RIGHT_HIP=24,
LEFT_ANKLE=27, RIGHT_ANKLE=28. -/
def key_pairs : List (Nat × Nat × String) :=
  [(11, 12, "Shoulders"),
   (15, 16, "Hands"),
   (23, 24, "Hips"),
   (27, 28, "Feet"),
   (11, 13, "Left Upper Arm"),
   (13, 15, "Left Lower Arm"),
   (12, 14, "Right Upper Arm"),
   (14, 16, "Right Lower Arm")]

/-- Visibility of `landmarks[i]` (Python indexing, guarded by the caller;
out of range gives the default landmark, visibility 0). -/
def visibilityAt (landmarks : List Landmark) (i : Nat) : ℚ :=
  (landmarks.getD i default).visibility

/-- The guard of the loop body in `calculate_body_distances`
(app.py lines 130-131): both indices in range and both visibilities
strictly above `0.3`. -/
def pairVisible (landmarks : List Landmark) (i j : Nat) : Bool :=
  decide (i < landmarks.length) && decide (j < landmarks.length) &&
    decide (visibilityAt landmarks i > 3 / 10) &&
    decide (visibilityAt landmarks j > 3 / 10)

/-- The measurement dict appended by `calculate_body_distances` for a pair
`(i, j, label)` that passed the guard (app.py lines 132-147). -/
def measurementFor (landmarks : List Landmark) (image_shape : Nat × Nat)
    (i j : Nat) (label : String) : Measurement :=
  let r := calculate_distance (landmarks.getD i default) (landmarks.getD j default) image_shape
  { label := label
    distanceSq := r.1
    point1 := i
    point2 := j
    point1_name := get_landmark_name i
    point2_name := get_landmark_name j
    coord1 := r.2.1
    coord2 := r.2.2 }

/-- `SimpleBodyTracker.calculate_body_distances` (app.py lines 112-149). -/
def calculate_body_distances (landmarks : List Landmark) (image_shape : Nat × Nat) :
    List Measurement :=
  key_pairs.filterMap fun p =>
    if pairVisible landmarks p.1 p.2.1 then
      some (measurementFor landmarks image_shape p.1 p.2.1 p.2.2)
    else
      none

/-- The ratio computed by `calculate_detection_quality` (app.py line 211):
`high_confidence_count / visible_count if visible_count > 0 else 0`, where
`visible_count` is the length of the received list and
`high_confidence_count` counts entries with visibility above `0.7`. -/
def detectionRatio (landmarks : List LandmarkDict) : ℚ :=
  let visible_count : ℚ := (landmarks.length : ℚ)
  let high_confidence_count : ℚ :=
    ((landmarks.filter fun l => decide (l.visibility > 7 / 10)).length : ℚ)
  if 0 < visible_count then high_confidence_count / visible_count else 0

/-- `SimpleBodyTracker.calculate_detection_quality` (app.py lines 203-220). -/
def calculate_detection_quality (landmarks : List LandmarkDict) : String :=
  if landmarks.isEmpty then "poor"
  else
    let ratio := detectionRatio landmarks
    if ratio > 8 / 10 then "excellent"
    else if ratio > 6 / 10 then "good"
    else if ratio > 4 / 10 then "fair"
    else "poor"

/-- Python's `s.split(',')` on a list of characters: the list of
comma-free segments, in order, one more segment than there are commas. -/
def pySplit : List Char → List (List Char)
  | [] => [[]]
  | c :: cs =>
    if c = ',' then [] :: pySplit cs
    else
      match pySplit cs with
      | [] => [[c]]
      | p :: ps => (c :: p) :: ps

/-- The base64 payload selected by `process_image` (app.py lines 52-53):
`if ',' in image_data: image_data = image_data.split(',')[1]`. -/
def stripPayload (image_data : List Char) : List Char :=
  if ',' ∈ image_data then (pySplit image_data).getD 1 [] else image_data

/-- Modelled from the spec: "strip any prefix up to and including the first
comma" — everything after the first comma, kept in full.  Comparator for the
refinement claim about the Image Codec; the repository's own selection of the
payload is `stripPayload` above. -/
def specAfterFirstComma : List Char → List Char
  | [] => []
  | c :: cs => if c = ',' then cs else specAfterFirstComma cs

/-- A raw byte buffer (contents abstract). -/
abbrev Bytes := List Nat

/-- A raster image: numpy `shape[:2]` is `(height, width)`; the pixel
contents are an abstract buffer. -/
structure Image where
  height : Nat
  width : Nat
  data : List Nat
deriving Repr, DecidableEq, Inhabited

/-- The external collaborators used by `SimpleBodyTracker`, as an explicit
environment.  Fallible calls return `Except String`; the `.error` case models
the Python call raising an exception with that message. -/
structure Env where
  /-- `base64.b64decode` (app.py line 55). -/
  b64decode : List Char → Except String Bytes
  /-- `Image.open` + `np.array` (app.py lines 56-57). -/
  imageOpen : Bytes → Except String Image
  /-- `cv2.cvtColor(..., cv2.COLOR_BGR2RGB)` (app.py line 60). -/
  cvtColor : Image → Except String Image
  /-- `self.pose.process` (app.py line 63): `none` models
  `results.pose_landmarks` being `None`. -/
  poseProcess : Image → Except String (Option (List Landmark))
  /-- `cv2.imencode('.jpg', ...)` (app.py line 225). -/
  imencode : Image → Except String Bytes
  /-- `base64.b64encode(...).decode('utf-8')` (app.py line 226). -/
  b64encode : Bytes → String
  /-- `mp_drawing.draw_landmarks` with the fixed pose connection topology
  (app.py lines 155-159). -/
  draw_landmarks : Image → List Landmark → Image
  /-- `cv2.line` (app.py lines 167-170). -/
  line : Image → ℤ × ℤ → ℤ × ℤ → Image
  /-- `cv2.putText` rendering a measurement's distance label
  (app.py lines 176-177). -/
  putDistText : Image → Measurement → ℤ × ℤ → Image
  /-- `cv2.putText` rendering a summary string (app.py lines 180-183). -/
  putText : Image → String → ℤ × ℤ → Image

/-- The `stats` dict built in `process_image` (app.py lines 100-104). -/
structure Stats where
  total_landmarks : Nat
  total_distances : Nat
  detection_quality : String
deriving Repr, DecidableEq

/-- The success-shaped response dict of `process_image` (app.py lines 65-71):
`stats = none` models the empty dict `{}` left when no body is detected. -/
structure Response where
  success : Bool
  landmarks : List LandmarkDict
  distances : List Measurement
  annotated_image : Option String
  stats : Option Stats
deriving Repr, DecidableEq

/-- What `process_image` returns: either the success-shaped dict or the
`{'success': False, 'error': msg}` dict produced by its `except` clause. -/
inductive ProcResult where
  | ok (resp : Response)
  | err (error : String)
deriving Repr, DecidableEq

/-- The `landmarks_data` extraction loop of `process_image`
(app.py lines 77-87): enumerate, keep visibility strictly above `0.3`. -/
def extract_landmarks (landmarks : List Landmark) : List LandmarkDict :=
  landmarks.enum.filterMap fun p =>
    if p.2.visibility > 3 / 10 then
      some { x := p.2.x, y := p.2.y, z := p.2.z, visibility := p.2.visibility,
             index := p.1, name := get_landmark_name p.1 }
    else
      none

/-- `SimpleBodyTracker.image_to_base64` (app.py lines 222-230): the internal
try/except turns an encoder exception into `none`. -/
def image_to_base64 (env : Env) (image : Image) : Option String :=
  match env.imencode image with
  | .ok buffer => some ("data:image/jpeg;base64," ++ env.b64encode buffer)
  | .error _ => none

/-- `SimpleBodyTracker.create_annotated_image` (app.py lines 151-185), as a
pure function on the image value (the mutation discipline is proved against
the heap model below).  `results` carries `results.pose_landmarks`; every
call site passes `some` (with `none` the source's line 180 would raise). -/
def create_annotated_image (env : Env) (image : Image)
    (results : Option (List Landmark)) (distances : List Measurement) : Image :=
  let image1 :=
    match results with
    | some lms => env.draw_landmarks image lms
    | none => image
  let image2 := distances.foldl (fun img d =>
    let imgLine := env.line img d.coord1 d.coord2
    let mid := ((d.coord1.1 + d.coord2.1).fdiv 2, (d.coord1.2 + d.coord2.2).fdiv 2)
    env.putDistText imgLine d mid) image1
  let visCount :=
    match results with
    | some lms => (lms.filter fun l : Landmark => decide (l.visibility > 3 / 10)).length
    | none => 0
  let image3 := env.putText image2 ("Landmarks: " ++ toString visCount) (10, 30)
  env.putText image3 ("Distances: " ++ toString distances.length) (10, 60)

/-- `SimpleBodyTracker.process_image` (app.py lines 48-110).  Every `.error`
of a pipeline step propagates to the `except` clause, which returns the
error-shaped dict; `image_np.copy()` is value passing here (see the heap
model for the frame property). -/
def process_image (env : Env) (image_data : List Char) : ProcResult :=
  match env.b64decode (stripPayload image_data) with
  | .error e => .err e
  | .ok image_bytes =>
    match env.imageOpen image_bytes with
    | .error e => .err e
    | .ok image_np =>
      match env.cvtColor image_np with
      | .error e => .err e
      | .ok image_rgb =>
        match env.poseProcess image_rgb with
        | .error e => .err e
        | .ok none => .ok ⟨true, [], [], none, none⟩
        | .ok (some landmarks) =>
          let landmarks_data := extract_landmarks landmarks
          let distances_data :=
            calculate_body_distances landmarks (image_np.height, image_np.width)
          let annotated_image :=
            create_annotated_image env image_np (some landmarks) distances_data
          .ok ⟨true, landmarks_data, distances_data,
               image_to_base64 env annotated_image,
               some ⟨landmarks_data.length, distances_data.length,
                     calculate_detection_quality landmarks_data⟩⟩

/-- The parsed JSON body of a POST /detect request: `image = none` models a
dict without the `image` key (the empty dict included). -/
structure RequestData where
  image : Option (List Char)
deriving Repr, DecidableEq

/-- The `detect_pose` route handler (app.py lines 242-260) for POST requests.
The argument is the outcome of `request.json`: `.error` models the parse
raising (caught by the outer `except`, status 500); `.ok none` models a null
body.  The result pairs the HTTP status with the JSON payload. -/
def detect_pose (env : Env) (body : Except String (Option RequestData)) :
    Nat × ProcResult :=
  match body with
  | .error e => (500, .err e)
  | .ok data =>
    match data with
    | none => (400, .err "No image data provided")
    | some d =>
      match d.image with
      | none => (400, .err "No image data provided")
      | some image_data => (200, process_image env image_data)

/-- A heap of image buffers; numpy array references are indices into it. -/
structure Heap where
  cells : List Image
deriving Repr, DecidableEq

/-- Read the buffer a reference designates. -/
def Heap.get (h : Heap) (r : Nat) : Image :=
  h.cells.getD r default

/-- Overwrite the buffer a reference designates (in-place mutation). -/
def Heap.set (h : Heap) (r : Nat) (img : Image) : Heap :=
  ⟨h.cells.set r img⟩

/-- Allocate a fresh buffer holding `img`; returns the new heap and the
fresh reference. -/
def Heap.alloc (h : Heap) (img : Image) : Heap × Nat :=
  (⟨h.cells ++ [img]⟩, h.cells.length)

/-- `create_annotated_image` as the source runs it: the cv2 drawing calls
mutate the array passed in, so the buffer at `r` is overwritten with the
annotated pixels. -/
def annotate_in_place (env : Env) (h : Heap) (r : Nat)
    (results : Option (List Landmark)) (distances : List Measurement) : Heap :=
  h.set r (create_annotated_image env (h.get r) results distances)

/-- The annotation stage of `process_image` (app.py line 96):
`self.create_annotated_image(image_np.copy(), results, distances_data)` —
allocate a copy of the buffer at `orig`, annotate the copy in place, and
return the heap together with the reference holding the annotated image. -/
def annotation_stage (env : Env) (h : Heap) (orig : Nat)
    (results : Option (List Landmark)) (distances : List Measurement) :
    Heap × Nat :=
  let copyStep := h.alloc (h.get orig)
  (annotate_in_place env copyStep.1 copyStep.2 results distances, copyStep.2)

/-! ## Shared lemmas and witness data -/

/-- A 29-entry landmark list (indices 0..28, covering every configured pair),
every landmark at normalized position `(0.17, 0.17)` with full visibility. -/
def lms29 : List Landmark :=
  List.replicate 29 ⟨17 / 100, 17 / 100, 0, 1⟩

theorem pairVisible_iff (landmarks : List Landmark) (i j : Nat) :
    pairVisible landmarks i j = true ↔
      i < landmarks.length ∧ j < landmarks.length ∧
      visibilityAt landmarks i > 3 / 10 ∧ visibilityAt landmarks j > 3 / 10 := by
  simp [pairVisible, and_assoc]

theorem lms29_pairs_visible : ∀ p ∈ key_pairs, pairVisible lms29 p.1 p.2.1 = true := by
  intro p hp
  fin_cases hp <;>
    · simp only [pairVisible, visibilityAt, lms29, List.getD]
      norm_num

/-! ## C1: pixel coordinates and the reported distance -/

/-- C1 (amended): for every keypoint pair that is measured, the pixel
coordinates of each endpoint are `(int(x_norm * width), int(y_norm * height))`
— truncation toward zero, not rounding to the nearest integer — and the
reported distance (`Real.sqrt` of the stored `distanceSq`) is the Euclidean
distance between those two integer pixel coordinates. -/
theorem measured_pair_coords_truncate (landmarks : List Landmark) (hgt wid : Nat)
    (m : Measurement) (hm : m ∈ calculate_body_distances landmarks (hgt, wid)) :
    m.coord1 = (pyInt ((landmarks.getD m.point1 default).x * (wid : ℚ)),
                pyInt ((landmarks.getD m.point1 default).y * (hgt : ℚ))) ∧
    m.coord2 = (pyInt ((landmarks.getD m.point2 default).x * (wid : ℚ)),
                pyInt ((landmarks.getD m.point2 default).y * (hgt : ℚ))) ∧
    Real.sqrt (m.distanceSq : ℝ) =
      Real.sqrt (((m.coord2.1 - m.coord1.1 : ℤ) : ℝ) ^ 2 +
                 ((m.coord2.2 - m.coord1.2 : ℤ) : ℝ) ^ 2) := by
  rcases List.mem_filterMap.mp hm with ⟨p, hp, hsome⟩
  by_cases hv : pairVisible landmarks p.1 p.2.1 = true
  · rw [if_pos hv] at hsome
    obtain rfl := (Option.some.injEq _ _).mp hsome
    refine ⟨rfl, rfl, ?_⟩
    congr 1
    simp only [measurementFor, calculate_distance]
    push_cast
    ring
  · rw [if_neg hv] at hsome
    cases hsome

/-- Witness for the amended C1 at the concrete "Shoulders" measurement on
`lms29` with a 10×10 image. -/
theorem measured_pair_coords_truncate_witness :
    (measurementFor lms29 (10, 10) 11 12 "Shoulders").coord1 =
      (pyInt ((lms29.getD 11 default).x * ((10 : Nat) : ℚ)),
       pyInt ((lms29.getD 11 default).y * ((10 : Nat) : ℚ))) := by
  have hmem : measurementFor lms29 (10, 10) 11 12 "Shoulders" ∈
      calculate_body_distances lms29 (10, 10) :=
    List.mem_filterMap.mpr ⟨(11, 12, "Shoulders"), by simp [key_pairs],
      by rw [if_pos (lms29_pairs_visible (11, 12, "Shoulders") (by simp [key_pairs]))]⟩
  exact (measured_pair_coords_truncate lms29 10 10 _ hmem).1

/-- C1 counterexample: on `lms29` (normalized coordinates `0.17`) with a
10×10 image the "Shoulders" pair is measured, the code computes pixel
coordinates `(1, 1)` by truncating `1.7`, while rounding to the nearest
integer would give `(2, 2)`. -/
theorem measured_pair_not_rounded :
    measurementFor lms29 (10, 10) 11 12 "Shoulders" ∈
      calculate_body_distances lms29 (10, 10) ∧
    (measurementFor lms29 (10, 10) 11 12 "Shoulders").coord1 = (1, 1) ∧
    (round ((lms29.getD 11 default).x * (10 : ℚ)),
     round ((lms29.getD 11 default).y * (10 : ℚ))) = (2, 2) ∧
    (measurementFor lms29 (10, 10) 11 12 "Shoulders").coord1 ≠
      (round ((lms29.getD 11 default).x * (10 : ℚ)),
       round ((lms29.getD 11 default).y * (10 : ℚ))) := by
  have hx : (lms29.getD 11 default).x = 17 / 100 := by
    simp [lms29, List.getD]
  have hy : (lms29.getD 11 default).y = 17 / 100 := by
    simp [lms29, List.getD]
  have hcoord : (measurementFor lms29 (10, 10) 11 12 "Shoulders").coord1 = (1, 1) := by
    simp only [measurementFor, calculate_distance]
    have h10 : pyInt ((lms29.getD 11 default).x * ((10 : Nat) : ℚ)) = 1 := by
      rw [hx, pyInt, if_pos (by norm_num), Int.floor_eq_iff]; norm_num
    have h10y : pyInt ((lms29.getD 11 default).y * ((10 : Nat) : ℚ)) = 1 := by
      rw [hy, pyInt, if_pos (by norm_num), Int.floor_eq_iff]; norm_num
    rw [Prod.mk.injEq]
    exact ⟨h10, h10y⟩
  have hround : (round ((lms29.getD 11 default).x * (10 : ℚ)),
      round ((lms29.getD 11 default).y * (10 : ℚ))) = (2, 2) := by
    rw [hx, hy, Prod.mk.injEq]
    constructor <;> (rw [round_eq, Int.floor_eq_iff]; norm_num)
  refine ⟨?_, hcoord, hround, ?_⟩
  · exact List.mem_filterMap.mpr ⟨(11, 12, "Shoulders"), by simp [key_pairs],
      by rw [if_pos (lms29_pairs_visible (11, 12, "Shoulders") (by simp [key_pairs]))]⟩
  · rw [hcoord, hround]
    decide

/-! ## C6: a measurement is produced iff both endpoints exist and are visible -/

/-- C6: for every `KeypointSet`, image shape and configured pair, the
measurement for that pair is in the output of `calculate_body_distances` if
and only if both endpoint indices are in range and both endpoint keypoints
have visibility strictly above the fixed threshold `0.3`; a pair failing
either condition is silently skipped (the function is total). -/
theorem measurement_produced_iff (landmarks : List Landmark) (shape : Nat × Nat)
    (i j : Nat) (label : String) (hp : (i, j, label) ∈ key_pairs) :
    measurementFor landmarks shape i j label ∈ calculate_body_distances landmarks shape ↔
      i < landmarks.length ∧ j < landmarks.length ∧
      visibilityAt landmarks i > 3 / 10 ∧ visibilityAt landmarks j > 3 / 10 := by
  constructor
  · intro hm
    rcases List.mem_filterMap.mp hm with ⟨p, _, hsome⟩
    by_cases hv : pairVisible landmarks p.1 p.2.1 = true
    · rw [if_pos hv] at hsome
      have heq := (Option.some.injEq _ _).mp hsome
      have h1 : p.1 = i := congrArg Measurement.point1 heq
      have h2 : p.2.1 = j := congrArg Measurement.point2 heq
      rw [h1, h2] at hv
      exact (pairVisible_iff landmarks i j).mp hv
    · rw [if_neg hv] at hsome
      cases hsome
  · intro hc
    exact List.mem_filterMap.mpr
      ⟨(i, j, label), hp, by rw [if_pos ((pairVisible_iff landmarks i j).mpr hc)]⟩

/-- Witness for C6 at the "Shoulders" pair on `lms29`. -/
theorem measurement_produced_iff_witness :
    (measurementFor lms29 (5, 5) 11 12 "Shoulders" ∈
        calculate_body_distances lms29 (5, 5) ↔
      11 < lms29.length ∧ 12 < lms29.length ∧
      visibilityAt lms29 11 > 3 / 10 ∧ visibilityAt lms29 12 > 3 / 10) :=
  measurement_produced_iff lms29 (5, 5) 11 12 "Shoulders" (by simp [key_pairs])

/-! ## C4: all pairs visible gives exactly 8 measurements in table order -/

/-- C4: when both endpoints of every configured pair are present with
visibility above the threshold, `calculate_body_distances` returns exactly
8 measurements, in the fixed table order Shoulders, Hands, Hips, Feet,
Left Upper Arm, Left Lower Arm, Right Upper Arm, Right Lower Arm. -/
theorem body_distances_all_visible (landmarks : List Landmark) (shape : Nat × Nat)
    (h : ∀ p ∈ key_pairs, pairVisible landmarks p.1 p.2.1 = true) :
    calculate_body_distances landmarks shape =
      [measurementFor landmarks shape 11 12 "Shoulders",
       measurementFor landmarks shape 15 16 "Hands",
       measurementFor landmarks shape 23 24 "Hips",
       measurementFor landmarks shape 27 28 "Feet",
       measurementFor landmarks shape 11 13 "Left Upper Arm",
       measurementFor landmarks shape 13 15 "Left Lower Arm",
       measurementFor landmarks shape 12 14 "Right Upper Arm",
       measurementFor landmarks shape 14 16 "Right Lower Arm"] ∧
    (calculate_body_distances landmarks shape).map Measurement.label =
      ["Shoulders", "Hands", "Hips", "Feet", "Left Upper Arm", "Left Lower Arm",
       "Right Upper Arm", "Right Lower Arm"] ∧
    (calculate_body_distances landmarks shape).length = 8 := by
  have h1 := h (11, 12, "Shoulders") (by simp [key_pairs])
  have h2 := h (15, 16, "Hands") (by simp [key_pairs])
  have h3 := h (23, 24, "Hips") (by simp [key_pairs])
  have h4 := h (27, 28, "Feet") (by simp [key_pairs])
  have h5 := h (11, 13, "Left Upper Arm") (by simp [key_pairs])
  have h6 := h (13, 15, "Left Lower Arm") (by simp [key_pairs])
  have h7 := h (12, 14, "Right Upper Arm") (by simp [key_pairs])
  have h8 := h (14, 16, "Right Lower Arm") (by simp [key_pairs])
  have hlist : calculate_body_distances landmarks shape =
      [measurementFor landmarks shape 11 12 "Shoulders",
       measurementFor landmarks shape 15 16 "Hands",
       measurementFor landmarks shape 23 24 "Hips",
       measurementFor landmarks shape 27 28 "Feet",
       measurementFor landmarks shape 11 13 "Left Upper Arm",
       measurementFor landmarks shape 13 15 "Left Lower Arm",
       measurementFor landmarks shape 12 14 "Right Upper Arm",
       measurementFor landmarks shape 14 16 "Right Lower Arm"] := by
    simp only [calculate_body_distances, key_pairs, List.filterMap_cons,
      List.filterMap_nil, h1, h2, h3, h4, h5, h6, h7, h8, if_true]
  refine ⟨hlist, ?_, ?_⟩
  · rw [hlist]
    simp [measurementFor]
  · rw [hlist]
    rfl

/-- Witness for C4 on `lms29` with a 100×200 image. -/
theorem body_distances_all_visible_witness :
    (calculate_body_distances lms29 (100, 200)).map Measurement.label =
      ["Shoulders", "Hands", "Hips", "Feet", "Left Upper Arm", "Left Lower Arm",
       "Right Upper Arm", "Right Lower Arm"] ∧
    (calculate_body_distances lms29 (100, 200)).length = 8 :=
  ⟨(body_distances_all_visible lms29 (100, 200) lms29_pairs_visible).2.1,
   (body_distances_all_visible lms29 (100, 200) lms29_pairs_visible).2.2⟩

/-! ## C3: detection-quality classification -/

/-- A landmark-dict list with `visible = 10` entries of which exactly
`highConfidence = 8` have visibility above `0.7` (ratio exactly `0.8`). -/
def boundaryLandmarks : List LandmarkDict :=
  [⟨0, 0, 0, 9 / 10, 0, "Nose"⟩, ⟨0, 0, 0, 9 / 10, 1, "Left Eye Inner"⟩,
   ⟨0, 0, 0, 9 / 10, 2, "Left Eye"⟩, ⟨0, 0, 0, 9 / 10, 3, "Left Eye Outer"⟩,
   ⟨0, 0, 0, 9 / 10, 4, "Right Eye Inner"⟩, ⟨0, 0, 0, 9 / 10, 5, "Right Eye"⟩,
   ⟨0, 0, 0, 9 / 10, 6, "Right Eye Outer"⟩, ⟨0, 0, 0, 9 / 10, 7, "Left Ear"⟩,
   ⟨0, 0, 0, 1 / 2, 8, "Right Ear"⟩, ⟨0, 0, 0, 1 / 2, 9, "Mouth Left"⟩]

/-- C3: `calculate_detection_quality` is a pure total function of the
landmark list; with `ratio = detectionRatio` (high-confidence count over
visible count, 0 when empty) it returns `excellent` iff `ratio > 0.8`,
`good` iff `0.6 < ratio ≤ 0.8`, `fair` iff `0.4 < ratio ≤ 0.6`, otherwise
`poor`; the empty list yields `poor`; and a list with `visible = 10`,
`highConfidence = 8` (ratio exactly `0.8`) maps to `good`, not `excellent`. -/
theorem detection_quality_buckets :
    (∀ landmarks : List LandmarkDict, landmarks ≠ [] →
      (calculate_detection_quality landmarks = "excellent" ↔
        8 / 10 < detectionRatio landmarks) ∧
      (calculate_detection_quality landmarks = "good" ↔
        6 / 10 < detectionRatio landmarks ∧ detectionRatio landmarks ≤ 8 / 10) ∧
      (calculate_detection_quality landmarks = "fair" ↔
        4 / 10 < detectionRatio landmarks ∧ detectionRatio landmarks ≤ 6 / 10) ∧
      (calculate_detection_quality landmarks = "poor" ↔
        detectionRatio landmarks ≤ 4 / 10)) ∧
    calculate_detection_quality [] = "poor" ∧
    boundaryLandmarks.length = 10 ∧
    (boundaryLandmarks.filter fun l => decide (l.visibility > 7 / 10)).length = 8 ∧
    detectionRatio boundaryLandmarks = 8 / 10 ∧
    calculate_detection_quality boundaryLandmarks = "good" := by
  have hhi : (decide ((9 : ℚ) / 10 > 7 / 10)) = true := by norm_num
  have hlo : (decide ((1 : ℚ) / 2 > 7 / 10)) = false := by norm_num
  have hfilter : (boundaryLandmarks.filter fun l => decide (l.visibility > 7 / 10)).length = 8 := by
    simp only [boundaryLandmarks, List.filter, hhi, hlo]
    rfl
  have hratio : detectionRatio boundaryLandmarks = 8 / 10 := by
    rw [detectionRatio]
    simp only [hfilter]
    rw [if_pos (by norm_num [boundaryLandmarks])]
    norm_num [boundaryLandmarks]
  refine ⟨?_, rfl, rfl, hfilter, hratio, ?_⟩
  · intro landmarks hne
    have hne2 : landmarks.isEmpty = false := by
      simpa [List.isEmpty_iff] using hne
    rw [calculate_detection_quality, hne2]
    simp only [Bool.false_eq_true, if_false]
    split_ifs with h1 h2 h3
    · exact ⟨iff_of_true rfl h1,
        iff_of_false (by decide) (fun hc => absurd h1 (not_lt.mpr hc.2)),
        iff_of_false (by decide) (fun hc => by linarith [hc.2]),
        iff_of_false (by decide) (fun hc => by linarith)⟩
    · exact ⟨iff_of_false (by decide) h1,
        iff_of_true rfl ⟨h2, not_lt.mp h1⟩,
        iff_of_false (by decide) (fun hc => absurd h2 (not_lt.mpr hc.2)),
        iff_of_false (by decide) (fun hc => by linarith)⟩
    · exact ⟨iff_of_false (by decide) h1,
        iff_of_false (by decide) (fun hc => absurd hc.1 h2),
        iff_of_true rfl ⟨h3, not_lt.mp h2⟩,
        iff_of_false (by decide) (fun hc => absurd h3 (not_lt.mpr hc))⟩
    · exact ⟨iff_of_false (by decide) h1,
        iff_of_false (by decide) (fun hc => absurd hc.1 h2),
        iff_of_false (by decide) (fun hc => absurd hc.1 h3),
        iff_of_true rfl (not_lt.mp h3)⟩
  · rw [calculate_detection_quality]
    rw [show boundaryLandmarks.isEmpty = false from rfl]
    simp only [Bool.false_eq_true, if_false, hratio]
    rw [if_neg (by norm_num), if_pos (by norm_num)]

/-- Witness for C3 at the boundary list (hypothesis `landmarks ≠ []`
discharged at `boundaryLandmarks`). -/
theorem detection_quality_buckets_witness :
    calculate_detection_quality boundaryLandmarks = "good" ↔
      6 / 10 < detectionRatio boundaryLandmarks ∧
      detectionRatio boundaryLandmarks ≤ 8 / 10 :=
  (detection_quality_buckets.1 boundaryLandmarks (by decide)).2.1

/-! ## C2: payload selected for base64 decoding -/

theorem pySplit_ne_nil (s : List Char) : pySplit s ≠ [] := by
  induction s with
  | nil => simp [pySplit]
  | cons c cs ih =>
    rw [pySplit]
    split_ifs
    · simp
    · rcases h : pySplit cs with _ | ⟨p, ps⟩
      · simp
      · simp

theorem pySplit_headD (s : List Char) :
    (pySplit s).headD [] = s.takeWhile (fun c => !(c == ',')) := by
  induction s with
  | nil => rfl
  | cons c cs ih =>
    rw [pySplit]
    by_cases hc : c = ','
    · subst hc
      simp [List.takeWhile_cons]
    · rcases h : pySplit cs with _ | ⟨p, ps⟩
      · exact absurd h (pySplit_ne_nil cs)
      · rw [if_neg hc]
        rw [h] at ih
        simp only [List.headD] at ih
        simp [List.takeWhile_cons, hc, ih]

/-- C2 (amended): for every input string containing at least one comma, the
bytes passed to base64 decoding are the segment of the string strictly
between the first comma and the next comma after it — the whole remainder
only when no second comma exists; content after a second comma is dropped
by `split(',')[1]`. -/
theorem stripPayload_second_segment (s : List Char) (h : ',' ∈ s) :
    stripPayload s = (specAfterFirstComma s).takeWhile (fun c => !(c == ',')) := by
  rw [stripPayload, if_pos h]
  induction s with
  | nil => cases h
  | cons c cs ih =>
    rw [pySplit]
    by_cases hc : c = ','
    · subst hc
      rw [if_pos rfl]
      have : (([] : List Char) :: pySplit cs).getD 1 [] = (pySplit cs).headD [] := by
        rcases hps : pySplit cs with _ | ⟨p, ps⟩
        · exact absurd hps (pySplit_ne_nil cs)
        · rfl
      rw [this, pySplit_headD]
      rfl
    · have hmem : ',' ∈ cs := by
        rcases List.mem_cons.mp h with h1 | h1
        · exact absurd h1.symm hc
        · exact h1
      rcases hps : pySplit cs with _ | ⟨p, ps⟩
      · exact absurd hps (pySplit_ne_nil cs)
      · rw [if_neg hc]
        have ihv := ih hmem
        rw [hps] at ihv
        have : ((c :: p) :: ps).getD 1 [] = (p :: ps).getD 1 [] := rfl
        rw [this, ihv]
        simp [specAfterFirstComma, hc]

/-- Witness for the amended C2 on a data-URI-shaped input. -/
theorem stripPayload_second_segment_witness :
    stripPayload ("data:image/jpeg;base64,QUJD".toList) =
      (specAfterFirstComma ("data:image/jpeg;base64,QUJD".toList)).takeWhile
        (fun c => !(c == ',')) :=
  stripPayload_second_segment ("data:image/jpeg;base64,QUJD".toList) (by decide)

/-- C2 counterexample: on `"a,b,c"` the code base64-decodes `"b"` — the
remainder after the first comma is `"b,c"`, so the part after the second
comma is discarded, contradicting the claim that nothing after the first
comma is dropped. -/
theorem stripPayload_drops_after_second_comma :
    stripPayload ("a,b,c".toList) = "b".toList ∧
    specAfterFirstComma ("a,b,c".toList) = "b,c".toList ∧
    stripPayload ("a,b,c".toList) ≠ specAfterFirstComma ("a,b,c".toList) := by
  refine ⟨?_, ?_, ?_⟩ <;> decide

/-! ## Concrete environments for witnesses and counterexamples -/

/-- An environment in which every external call succeeds and the pose model
detects no body (`pose_landmarks` is `None`). -/
def envNoPose : Env where
  b64decode := fun _ => .ok [0]
  imageOpen := fun _ => .ok ⟨1, 1, [0]⟩
  cvtColor := fun i => .ok i
  poseProcess := fun _ => .ok none
  imencode := fun _ => .ok [0]
  b64encode := fun _ => "AA=="
  draw_landmarks := fun i _ => i
  line := fun i _ _ => i
  putDistText := fun i _ _ => i
  putText := fun i _ _ => i

/-- An environment in which the pose model detects a body with an empty
landmark list and `cv2.imencode` raises. -/
def envEncodeFail : Env where
  b64decode := fun _ => .ok [0]
  imageOpen := fun _ => .ok ⟨1, 1, [0]⟩
  cvtColor := fun i => .ok i
  poseProcess := fun _ => .ok (some [])
  imencode := fun _ => .error "encode failed"
  b64encode := fun _ => "AA=="
  draw_landmarks := fun i _ => i
  line := fun i _ _ => i
  putDistText := fun i _ _ => i
  putText := fun i _ _ => i

/-- An environment in which `base64.b64decode` raises. -/
def envDecodeFail : Env where
  b64decode := fun _ => .error "Invalid base64-encoded string"
  imageOpen := fun _ => .ok ⟨1, 1, [0]⟩
  cvtColor := fun i => .ok i
  poseProcess := fun _ => .ok none
  imencode := fun _ => .ok [0]
  b64encode := fun _ => "AA=="
  draw_landmarks := fun i _ => i
  line := fun i _ _ => i
  putDistText := fun i _ _ => i
  putText := fun i _ _ => i

/-! ## C5: zero detected keypoints -/

/-- The response shape C5 claims for a zero-keypoint detection: success,
empty sequences, and a stats dict carrying detection quality `poor`. -/
def zeroKeypointClaim (r : ProcResult) : Prop :=
  ∃ resp, r = .ok resp ∧ resp.success = true ∧ resp.landmarks = [] ∧
    resp.distances = [] ∧
    ∃ st, resp.stats = some st ∧ st.detection_quality = "poor"

/-- C5 (amended): for every environment and input on which decoding succeeds
and the landmark source detects no body, `process_image` returns
`success: true` with empty landmark and distance sequences, a null annotated
image, and an *empty* stats dict — no detection-quality field is reported. -/
theorem no_pose_empty_response (env : Env) (s : List Char) (bs : Bytes)
    (img imgRgb : Image)
    (h1 : env.b64decode (stripPayload s) = .ok bs)
    (h2 : env.imageOpen bs = .ok img)
    (h3 : env.cvtColor img = .ok imgRgb)
    (h4 : env.poseProcess imgRgb = .ok none) :
    process_image env s = .ok ⟨true, [], [], none, none⟩ := by
  simp [process_image, h1, h2, h3, h4]

/-- Witness for the amended C5 in the concrete no-pose environment. -/
theorem no_pose_empty_response_witness :
    process_image envNoPose ("img".toList) = .ok ⟨true, [], [], none, none⟩ :=
  no_pose_empty_response envNoPose ("img".toList) [0] ⟨1, 1, [0]⟩ ⟨1, 1, [0]⟩
    rfl rfl rfl rfl

/-- C5 counterexample: in the no-pose environment the response is
`success: true` with empty sequences but its stats dict is empty — there is
no detection-quality field at all, where the claim requires quality `poor`. -/
theorem zero_keypoints_quality_missing :
    process_image envNoPose ("img".toList) = .ok ⟨true, [], [], none, none⟩ ∧
    ¬ zeroKeypointClaim (process_image envNoPose ("img".toList)) := by
  have h : process_image envNoPose ("img".toList) = .ok ⟨true, [], [], none, none⟩ := rfl
  refine ⟨h, ?_⟩
  rintro ⟨resp, heq, -, -, -, st, hst, -⟩
  rw [h] at heq
  cases (ProcResult.ok.injEq _ _).mp heq
  cases hst

/-! ## C7: missing image field -/

/-- C7: for every POST /detect request whose JSON body is null or lacks the
`image` field, the handler answers HTTP 400 with
`{success: false, error: "No image data provided"}`, and no image processing
is invoked (the answer does not depend on the processing environment). -/
theorem missing_image_field_400 (env envAlt : Env)
    (body : Except String (Option RequestData))
    (h : body = .ok none ∨ ∃ d, body = .ok (some d) ∧ d.image = none) :
    detect_pose env body = (400, .err "No image data provided") ∧
    detect_pose env body = detect_pose envAlt body := by
  rcases h with rfl | ⟨d, rfl, hd⟩
  · exact ⟨rfl, rfl⟩
  · constructor <;> simp [detect_pose, hd]

/-- Witness for C7 at a null request body. -/
theorem missing_image_field_400_witness :
    detect_pose envNoPose (.ok none) = (400, .err "No image data provided") ∧
    detect_pose envNoPose (.ok none) = detect_pose envEncodeFail (.ok none) :=
  missing_image_field_400 envNoPose envEncodeFail (.ok none) (Or.inl rfl)

/-! ## C8: encoder failure does not fail the request -/

/-- C8: if encoding the annotated image fails (`cv2.imencode` raises), the
annotated-image field is set to `none` and the rest of the response —
landmarks, distances and stats — is still returned with `success: true`. -/
theorem encode_failure_keeps_success (env : Env) (s : List Char) (bs : Bytes)
    (img imgRgb : Image) (landmarks : List Landmark) (e : String)
    (h1 : env.b64decode (stripPayload s) = .ok bs)
    (h2 : env.imageOpen bs = .ok img)
    (h3 : env.cvtColor img = .ok imgRgb)
    (h4 : env.poseProcess imgRgb = .ok (some landmarks))
    (h5 : ∀ i : Image, env.imencode i = .error e) :
    process_image env s =
      .ok ⟨true, extract_landmarks landmarks,
           calculate_body_distances landmarks (img.height, img.width),
           none,
           some ⟨(extract_landmarks landmarks).length,
                 (calculate_body_distances landmarks (img.height, img.width)).length,
                 calculate_detection_quality (extract_landmarks landmarks)⟩⟩ := by
  simp [process_image, h1, h2, h3, h4, image_to_base64, h5]

/-- Witness for C8 in the concrete failing-encoder environment. -/
theorem encode_failure_keeps_success_witness :
    process_image envEncodeFail ("img".toList) =
      .ok ⟨true, extract_landmarks [],
           calculate_body_distances [] (1, 1),
           none,
           some ⟨(extract_landmarks []).length,
                 (calculate_body_distances [] (1, 1)).length,
                 calculate_detection_quality (extract_landmarks [])⟩⟩ :=
  encode_failure_keeps_success envEncodeFail ("img".toList) [0] ⟨1, 1, [0]⟩
    ⟨1, 1, [0]⟩ [] "encode failed" rfl rfl rfl rfl (fun _ => rfl)

/-! ## C9: annotation works on a copy, never on the original buffer -/

theorem set_append_last (l : List Image) (a b : Image) :
    (l ++ [a]).set l.length b = l ++ [b] := by
  induction l with
  | nil => rfl
  | cons x xs ih => simp [List.set, ih]

/-- C9: the annotation stage allocates a copy of the decoded image buffer,
draws onto that copy in place, and leaves the original buffer untouched;
the reference it returns is distinct from the original. -/
theorem annotation_preserves_original (env : Env) (h : Heap) (orig : Nat)
    (ho : orig < h.cells.length) (results : Option (List Landmark))
    (distances : List Measurement) :
    ((annotation_stage env h orig results distances).1).get orig = h.get orig ∧
    (annotation_stage env h orig results distances).2 ≠ orig := by
  constructor
  · show Heap.get
      ⟨(h.cells ++ [h.get orig]).set h.cells.length
        (create_annotated_image env
          (Heap.get ⟨h.cells ++ [h.get orig]⟩ h.cells.length) results distances)⟩
      orig = h.get orig
    rw [set_append_last]
    show (h.cells ++ [_]).getD orig default = h.cells.getD orig default
    rw [List.getD_eq_getElem?_getD, List.getD_eq_getElem?_getD,
      List.getElem?_append, if_pos ho]
  · show h.cells.length ≠ orig
    exact (Nat.ne_of_lt ho).symm

/-- Witness for C9 on a one-buffer heap. -/
theorem annotation_preserves_original_witness :
    ((annotation_stage envNoPose ⟨[⟨1, 1, [7]⟩]⟩ 0 none []).1).get 0 =
      Heap.get ⟨[⟨1, 1, [7]⟩]⟩ 0 ∧
    (annotation_stage envNoPose ⟨[⟨1, 1, [7]⟩]⟩ 0 none []).2 ≠ 0 :=
  annotation_preserves_original envNoPose ⟨[⟨1, 1, [7]⟩]⟩ 0 (by decide) none []

/-! ## C10: processing failures surface as HTTP 200, 500 only outside -/

/-- C10: every exception raised during image processing is caught inside
`process_image` and surfaced as HTTP 200 with `{success: false, error}` —
in particular a base64 decode failure — while the handler's 500 branch is
reached exactly when the request body itself failed to parse. -/
theorem processing_errors_surface_200 (env : Env) :
    (∀ (d : RequestData) (s : List Char), d.image = some s →
      detect_pose env (.ok (some d)) = (200, process_image env s)) ∧
    (∀ (s : List Char) (e : String), env.b64decode (stripPayload s) = .error e →
      detect_pose env (.ok (some ⟨some s⟩)) = (200, .err e)) ∧
    (∀ body : Except String (Option RequestData),
      (detect_pose env body).1 = 500 →
        ∃ e, body = .error e ∧ detect_pose env body = (500, .err e)) := by
  refine ⟨?_, ?_, ?_⟩
  · intro d s hd
    simp [detect_pose, hd]
  · intro s e he
    simp [detect_pose, process_image, he]
  · intro body h5
    match body with
    | .error e => exact ⟨e, rfl, rfl⟩
    | .ok none => simp [detect_pose] at h5
    | .ok (some d) =>
      obtain ⟨img⟩ := d
      cases img <;> simp [detect_pose] at h5

/-- Witness for C10: a raising base64 decoder still yields HTTP 200 with the
error payload. -/
theorem processing_errors_surface_200_witness :
    detect_pose envDecodeFail (.ok (some ⟨some ("img".toList)⟩)) =
      (200, .err "Invalid base64-encoded string") :=
  (processing_errors_surface_200 envDecodeFail).2.1 ("img".toList)
    "Invalid base64-encoded string" rfl

end CameraTracker
